import Mathlib

/-!
# Verification of `src/tools/grt-lin-reg-tool.cpp`

A shallow embedding of the GRT linear-regression command-line tool.  The tool
itself is pure orchestration: it parses flags, loads a regression dataset,
configures a linear-regression algorithm with fixed constants, trains a
pipeline, and saves the trained pipeline, logging as it goes.  All external
GRT library calls (`CommandLineParser`, `RegressionData::load`,
`GestureRecognitionPipeline::train` / `save`) are modelled by their observable
outcomes, supplied as inputs:

* `CommandLineArgs` holds the results of the four `parser.get` retrievals
  (`-f`, `--model`, `-n`, `-t`); an option is `none` when the flag is absent
  or its value does not parse (for `-n`/`-t`, as a non-negative integer,
  mirroring the C++ `unsigned int` out-parameters).
* `ExternalLib` holds the outcomes of the external library calls: whether
  `load`, `train` and `save` succeed, the loaded dataset's sample count and
  dimensions, and the pipeline's training time (modelled as `Nat`; in GRT it
  is a millisecond count).

The functions `train` and `main` mirror the two functions of the source file
line by line.  They return the boolean / exit-code result together with the
ordered trace of observable events: every `infoLog` / `warningLog` /
`errorLog` line (message text as in the source, without the trailing
newline), the `printUsage` call (modelled as the single `Event.usage`, which
stands for the whole usage text that `printUsage` prints), the
`parser.parse` call, and each external library call.
-/

namespace GrtLinRegTool

/-- The configuration of the `LinearRegression` algorithm as set by the six
setter calls at lines 115-120 of the source (`setMaxNumEpochs`,
`setMinChange`, `setUseValidationSet`, `setValidationSetSize`,
`setRandomiseTrainingOrder`, `enableScaling`).  `minChange` is a rational,
standing for the C++ `Float64` value `1.0e-5`, which is exact in binary-free
rational form here. -/
structure RegressionConfig where
  maxNumEpochs : Nat
  minChange : Rat
  useValidationSet : Bool
  validationSetSize : Nat
  randomiseTrainingOrder : Bool
  scalingEnabled : Bool
  deriving DecidableEq

/-- Observable events of a run, in order.  `info`/`warning`/`error` are the
three severity-tagged log streams; `usage` stands for one call of
`printUsage` (lines 23-31), i.e. one printing of the full usage text;
`parseCall` is `parser.parse(argc, argv)` (line 57);
`setInputAndTargetDimensions`, `loadCall`, `configure`, `trainCall` and
`saveCall` are the external library calls of `train` (lines 97, 101, 113-126,
131, 141). -/
inductive Event where
  | info (msg : String)
  | warning (msg : String)
  | error (msg : String)
  | usage
  | parseCall
  | setInputAndTargetDimensions (n t : Nat)
  | loadCall (filename : String)
  | configure (cfg : RegressionConfig)
  | trainCall
  | saveCall (filename : String)
  deriving DecidableEq

/-- The results of the four `parser.get` retrievals.  A field is `none` when
the corresponding flag is absent from the command line or its value fails to
parse at the out-parameter's type (`string` for `-f`/`--model`,
`unsigned int`, i.e. a non-negative integer, for `-n`/`-t`). -/
structure CommandLineArgs where
  filename : Option String
  modelFilename : Option String
  numInputDimensions : Option Nat
  numTargetDimensions : Option Nat

/-- Outcomes of the external GRT library calls, supplied as an oracle:
whether `trainingData.load` succeeds, the loaded dataset's
`getNumSamples` / `getNumInputDimensions` / `getNumTargetDimensions`,
whether `pipeline.train` and `pipeline.save` succeed, and
`pipeline.getTrainingTime`. -/
structure ExternalLib where
  loadSucceeds : Bool
  numSamples : Nat
  numInputDimensions : Nat
  numTargetDimensions : Nat
  trainSucceeds : Bool
  saveSucceeds : Bool
  trainingTime : Nat

/-- `string defaultFilename = "linear-regression-model.grt";` (line 77). -/
def defaultFilename : String := "linear-regression-model.grt"

/-- C `EXIT_SUCCESS`. -/
def EXIT_SUCCESS : Nat := 0

/-- C `EXIT_FAILURE`. -/
def EXIT_FAILURE : Nat := 1

/-- The regression configuration built at lines 113-120: iteration cap 500,
minimum change `1.0e-5`, validation set enabled with size 20, randomised
training order, scaling enabled. -/
def configuredRegression : RegressionConfig :=
  { maxNumEpochs := 500
    minChange := 1e-5
    useValidationSet := true
    validationSetSize := 20
    randomiseTrainingOrder := true
    scalingEnabled := true }

/-- Lines 95-98: if both `-n` and `-t` parsed, log the dimensions and call
`trainingData.setInputAndTargetDimensions`; otherwise do nothing. -/
def dimEvents (cmdline : CommandLineArgs) : List Event :=
  match cmdline.numInputDimensions, cmdline.numTargetDimensions with
  | some n, some t =>
      [Event.info ("num input dimensions: " ++ toString n ++ " num target dimensions: " ++ toString t),
       Event.setInputAndTargetDimensions n t]
  | _, _ => []

/-- Lines 141-143: after the `pipeline.save` call, log `- Model saved.` on
success, otherwise the save-failure warning. -/
def saveEvents (saveSucceeds : Bool) (modelFilename : String) : List Event :=
  if saveSucceeds then [Event.info "- Model saved."]
  else [Event.warning ("Failed to save model to file: " ++ modelFilename)]

/-- `bool train( CommandLineParser &parser )` (lines 71-148): returns the
boolean result together with the ordered event trace. -/
def train (cmdline : CommandLineArgs) (lib : ExternalLib) : Bool × List Event :=
  let ev0 : List Event := [Event.info "Training regression model..."]
  match cmdline.filename with
  | none =>
      (false, ev0 ++
        [Event.error "Failed to parse filename from command line! You can set the filename using the -f.",
         Event.usage])
  | some trainDatasetFilename =>
      let modelFilename := cmdline.modelFilename.getD defaultFilename
      let ev1 := ev0 ++ dimEvents cmdline
      let ev2 := ev1 ++ [Event.info "- Loading Training Data...", Event.loadCall trainDatasetFilename]
      if !lib.loadSucceeds then
        (false, ev2 ++ [Event.error "Failed to load training data!"])
      else
        let ev3 := ev2 ++
          [Event.info ("- Num training samples: " ++ toString lib.numSamples),
           Event.info ("- Num input dimensions: " ++ toString lib.numInputDimensions),
           Event.info ("- Num target dimensions: " ++ toString lib.numTargetDimensions),
           Event.configure configuredRegression,
           Event.info "- Training model...",
           Event.trainCall]
        if !lib.trainSucceeds then
          (false, ev3 ++ [Event.error "Failed to train model!"])
        else
          (true, ev3 ++
            [Event.info "- Model trained!",
             Event.info ("- Saving model to: " ++ modelFilename),
             Event.saveCall modelFilename] ++
            saveEvents lib.saveSucceeds modelFilename ++
            [Event.info ("- TrainingTime: " ++ toString lib.trainingTime)])

/-- `int main(int argc, char * argv[])` (lines 35-69): the exit code together
with the ordered event trace.  `argc` counts the program name plus the
supplied process arguments, as in C. -/
def main (argc : Nat) (cmdline : CommandLineArgs) (lib : ExternalLib) : Nat × List Event :=
  if argc < 2 then
    (EXIT_FAILURE, [Event.error "Not enough input arguments!", Event.usage])
  else
    let result := train cmdline lib
    if result.1 then
      (EXIT_SUCCESS, Event.parseCall :: result.2 ++ [Event.info "Model Trained!"])
    else
      (EXIT_FAILURE, Event.parseCall :: result.2 ++ [Event.error "Failed to train model!", Event.usage])

/-- `a` occurs strictly before `b` in the list `l`. -/
def SeqOccurs (a b : Event) (l : List Event) : Prop :=
  ∃ l₁ l₂ l₃, l = l₁ ++ a :: (l₂ ++ b :: l₃)

/-- Boolean decision procedure for `SeqOccurs`. -/
def seqOccursB (a b : Event) : List Event → Bool
  | [] => false
  | e :: rest => (decide (e = a) && decide (b ∈ rest)) || seqOccursB a b rest

theorem seqOccursB_iff (a b : Event) (l : List Event) :
    seqOccursB a b l = true ↔ SeqOccurs a b l := by
  induction l with
  | nil =>
      constructor
      · intro h
        simp [seqOccursB] at h
      · rintro ⟨l₁, l₂, l₃, h⟩
        cases l₁ <;> simp at h
  | cons e rest ih =>
      simp only [seqOccursB, Bool.or_eq_true, Bool.and_eq_true, decide_eq_true_eq, ih]
      constructor
      · rintro (⟨rfl, hb⟩ | ⟨l₁, l₂, l₃, rfl⟩)
        · obtain ⟨s, t, rfl⟩ := List.append_of_mem hb
          exact ⟨[], s, t, rfl⟩
        · exact ⟨e :: l₁, l₂, l₃, rfl⟩
      · rintro ⟨l₁, l₂, l₃, h⟩
        cases l₁ with
        | nil =>
            simp only [List.nil_append, List.cons.injEq] at h
            obtain ⟨rfl, rfl⟩ := h
            exact Or.inl ⟨rfl, List.mem_append_right _ (List.mem_cons_self _ _)⟩
        | cons x xs =>
            simp only [List.cons_append, List.cons.injEq] at h
            obtain ⟨rfl, rfl⟩ := h
            exact Or.inr ⟨xs, l₂, l₃, rfl⟩

theorem seqOccurs_cons (a b x : Event) (l : List Event) (h : SeqOccurs a b l) :
    SeqOccurs a b (x :: l) := by
  obtain ⟨l₁, l₂, l₃, rfl⟩ := h
  exact ⟨x :: l₁, l₂, l₃, rfl⟩

theorem seqOccurs_append_left (a b : Event) (l₀ l : List Event) (h : SeqOccurs a b l) :
    SeqOccurs a b (l₀ ++ l) := by
  induction l₀ with
  | nil => exact h
  | cons x xs ih => exact seqOccurs_cons a b x _ ih

/-! ## Shape of the `dimEvents` and `saveEvents` segments -/

theorem setShape_mem_dimEvents (cmdline : CommandLineArgs) (n t : Nat) :
    Event.setInputAndTargetDimensions n t ∈ dimEvents cmdline ↔
      cmdline.numInputDimensions = some n ∧ cmdline.numTargetDimensions = some t := by
  rcases hn : cmdline.numInputDimensions with _ | n₀ <;>
    rcases ht : cmdline.numTargetDimensions with _ | t₀ <;>
      simp [dimEvents, hn, ht] <;> tauto

theorem saveCall_not_mem_dimEvents (cmdline : CommandLineArgs) (m : String) :
    Event.saveCall m ∉ dimEvents cmdline := by
  rcases hn : cmdline.numInputDimensions with _ | n₀ <;>
    rcases ht : cmdline.numTargetDimensions with _ | t₀ <;>
      simp [dimEvents, hn, ht]

theorem loadCall_not_mem_dimEvents (cmdline : CommandLineArgs) (f : String) :
    Event.loadCall f ∉ dimEvents cmdline := by
  rcases hn : cmdline.numInputDimensions with _ | n₀ <;>
    rcases ht : cmdline.numTargetDimensions with _ | t₀ <;>
      simp [dimEvents, hn, ht]

theorem trainCall_not_mem_dimEvents (cmdline : CommandLineArgs) :
    Event.trainCall ∉ dimEvents cmdline := by
  rcases hn : cmdline.numInputDimensions with _ | n₀ <;>
    rcases ht : cmdline.numTargetDimensions with _ | t₀ <;>
      simp [dimEvents, hn, ht]

theorem saveCall_not_mem_saveEvents (b : Bool) (m m₂ : String) :
    Event.saveCall m ∉ saveEvents b m₂ := by
  cases b <;> simp [saveEvents]

theorem configure_not_mem_dimEvents (cmdline : CommandLineArgs) (cfg : RegressionConfig) :
    Event.configure cfg ∉ dimEvents cmdline := by
  rcases hn : cmdline.numInputDimensions with _ | n₀ <;>
    rcases ht : cmdline.numTargetDimensions with _ | t₀ <;>
      simp [dimEvents, hn, ht]

theorem configure_not_mem_saveEvents (b : Bool) (m : String) (cfg : RegressionConfig) :
    Event.configure cfg ∉ saveEvents b m := by
  cases b <;> simp [saveEvents]

theorem setShape_not_mem_saveEvents (b : Bool) (m : String) (n t : Nat) :
    Event.setInputAndTargetDimensions n t ∉ saveEvents b m := by
  cases b <;> simp [saveEvents]

/-! ## Branch characterisations of `train` and `main` -/

theorem train_no_filename (cmdline : CommandLineArgs) (lib : ExternalLib)
    (hf : cmdline.filename = none) :
    train cmdline lib =
      (false,
        [Event.info "Training regression model...",
         Event.error "Failed to parse filename from command line! You can set the filename using the -f.",
         Event.usage]) := by
  simp [train, hf]

theorem train_load_fail (cmdline : CommandLineArgs) (lib : ExternalLib) (f : String)
    (hf : cmdline.filename = some f) (hl : lib.loadSucceeds = false) :
    train cmdline lib =
      (false,
        Event.info "Training regression model..." :: dimEvents cmdline ++
        [Event.info "- Loading Training Data...", Event.loadCall f,
         Event.error "Failed to load training data!"]) := by
  simp [train, hf, hl]

theorem train_train_fail (cmdline : CommandLineArgs) (lib : ExternalLib) (f : String)
    (hf : cmdline.filename = some f) (hl : lib.loadSucceeds = true)
    (ht : lib.trainSucceeds = false) :
    train cmdline lib =
      (false,
        Event.info "Training regression model..." :: dimEvents cmdline ++
        [Event.info "- Loading Training Data...", Event.loadCall f,
         Event.info ("- Num training samples: " ++ toString lib.numSamples),
         Event.info ("- Num input dimensions: " ++ toString lib.numInputDimensions),
         Event.info ("- Num target dimensions: " ++ toString lib.numTargetDimensions),
         Event.configure configuredRegression,
         Event.info "- Training model...",
         Event.trainCall,
         Event.error "Failed to train model!"]) := by
  simp [train, hf, hl, ht]

theorem train_success (cmdline : CommandLineArgs) (lib : ExternalLib) (f : String)
    (hf : cmdline.filename = some f) (hl : lib.loadSucceeds = true)
    (ht : lib.trainSucceeds = true) :
    train cmdline lib =
      (true,
        Event.info "Training regression model..." :: dimEvents cmdline ++
        [Event.info "- Loading Training Data...", Event.loadCall f,
         Event.info ("- Num training samples: " ++ toString lib.numSamples),
         Event.info ("- Num input dimensions: " ++ toString lib.numInputDimensions),
         Event.info ("- Num target dimensions: " ++ toString lib.numTargetDimensions),
         Event.configure configuredRegression,
         Event.info "- Training model...",
         Event.trainCall,
         Event.info "- Model trained!",
         Event.info ("- Saving model to: " ++ cmdline.modelFilename.getD defaultFilename),
         Event.saveCall (cmdline.modelFilename.getD defaultFilename)] ++
        saveEvents lib.saveSucceeds (cmdline.modelFilename.getD defaultFilename) ++
        [Event.info ("- TrainingTime: " ++ toString lib.trainingTime)]) := by
  simp [train, hf, hl, ht]

theorem main_few_args (argc : Nat) (cmdline : CommandLineArgs) (lib : ExternalLib)
    (h : argc < 2) :
    main argc cmdline lib =
      (EXIT_FAILURE, [Event.error "Not enough input arguments!", Event.usage]) := by
  simp [main, h]

theorem main_ge_two (argc : Nat) (cmdline : CommandLineArgs) (lib : ExternalLib)
    (h : 2 ≤ argc) :
    main argc cmdline lib =
      (if (train cmdline lib).1 then
        (EXIT_SUCCESS, Event.parseCall :: (train cmdline lib).2 ++ [Event.info "Model Trained!"])
       else
        (EXIT_FAILURE, Event.parseCall :: (train cmdline lib).2 ++
          [Event.error "Failed to train model!", Event.usage])) := by
  simp [main, Nat.not_lt.mpr h]

/-! ## Concrete example inputs -/

/-- A command line with every recognised flag present:
`grt-lin-reg-tool -f data.csv -n 2 -t 1 --model out.grt`. -/
def exampleArgs : CommandLineArgs :=
  { filename := some "data.csv"
    modelFilename := some "out.grt"
    numInputDimensions := some 2
    numTargetDimensions := some 1 }

/-- A command line with only `-f` present. -/
def exampleArgsNoModel : CommandLineArgs :=
  { filename := some "data.grt"
    modelFilename := none
    numInputDimensions := none
    numTargetDimensions := none }

/-- A command line on which no recognised flag parses. -/
def exampleArgsNoFile : CommandLineArgs :=
  { filename := none
    modelFilename := none
    numInputDimensions := none
    numTargetDimensions := none }

/-- External-library outcomes: everything succeeds; the loaded dataset has
100 samples, 2 input and 1 target dimensions; training takes 42 ms. -/
def exampleLib : ExternalLib :=
  { loadSucceeds := true
    numSamples := 100
    numInputDimensions := 2
    numTargetDimensions := 1
    trainSucceeds := true
    saveSucceeds := true
    trainingTime := 42 }

/-- Same as `exampleLib` except that `pipeline.save` fails. -/
def exampleLibSaveFail : ExternalLib :=
  { loadSucceeds := true
    numSamples := 100
    numInputDimensions := 2
    numTargetDimensions := 1
    trainSucceeds := true
    saveSucceeds := false
    trainingTime := 42 }

/-! ## Claims -/

/-- C1: the process exits with code 0 exactly when the argument-count check,
filename retrieval, dataset loading and training all succeed (and then a
save attempt is part of the trace, whatever its outcome); it exits with the
non-zero code `EXIT_FAILURE` when there are too few arguments, the `-f`
filename is missing, the dataset fails to load, or training fails.  The save
attempt (`Event.saveCall`) is in the trace exactly on the successful runs. -/
theorem c1_exit_code (argc : Nat) (cmdline : CommandLineArgs) (lib : ExternalLib) :
    (main argc cmdline lib).1 =
      (if 2 ≤ argc ∧ cmdline.filename.isSome ∧ lib.loadSucceeds = true ∧ lib.trainSucceeds = true
       then EXIT_SUCCESS else EXIT_FAILURE) ∧
    (Event.saveCall (cmdline.modelFilename.getD defaultFilename) ∈ (main argc cmdline lib).2 ↔
      (2 ≤ argc ∧ cmdline.filename.isSome ∧ lib.loadSucceeds = true ∧ lib.trainSucceeds = true)) := by
  by_cases h2 : argc < 2
  · have hn2 : ¬ 2 ≤ argc := Nat.not_le.mpr h2
    simp [main_few_args argc cmdline lib h2, hn2, EXIT_SUCCESS, EXIT_FAILURE]
  · have h2' : 2 ≤ argc := Nat.not_lt.mp h2
    rcases hf : cmdline.filename with _ | f
    · simp [main_ge_two argc cmdline lib h2', train_no_filename cmdline lib hf, hf, h2',
        EXIT_SUCCESS, EXIT_FAILURE]
    · rcases hl : lib.loadSucceeds
      · simp [main_ge_two argc cmdline lib h2', train_load_fail cmdline lib f hf hl, hf, hl, h2',
          saveCall_not_mem_dimEvents, EXIT_SUCCESS, EXIT_FAILURE]
      · rcases ht : lib.trainSucceeds
        · simp [main_ge_two argc cmdline lib h2', train_train_fail cmdline lib f hf hl ht, hf, hl,
            ht, h2', saveCall_not_mem_dimEvents, EXIT_SUCCESS, EXIT_FAILURE]
        · simp [main_ge_two argc cmdline lib h2', train_success cmdline lib f hf hl ht, hf, hl,
            ht, h2', saveCall_not_mem_dimEvents, saveCall_not_mem_saveEvents,
            EXIT_SUCCESS, EXIT_FAILURE]

/-- C4: with fewer than two process arguments (`argc < 2`) the program prints
the usage text and exits with failure immediately: no call of
`parser.parse`, no dataset load and no save attempt appears in the trace. -/
theorem c4_few_args (argc : Nat) (cmdline : CommandLineArgs) (lib : ExternalLib)
    (h : argc < 2) :
    (main argc cmdline lib).1 = EXIT_FAILURE ∧
    Event.usage ∈ (main argc cmdline lib).2 ∧
    Event.parseCall ∉ (main argc cmdline lib).2 ∧
    (∀ f, Event.loadCall f ∉ (main argc cmdline lib).2) ∧
    (∀ m, Event.saveCall m ∉ (main argc cmdline lib).2) := by
  simp [main_few_args argc cmdline lib h]

theorem c4_few_args_witness :
    (1 : Nat) < 2 ∧
    (main 1 exampleArgs exampleLib).1 = EXIT_FAILURE ∧
    Event.usage ∈ (main 1 exampleArgs exampleLib).2 ∧
    Event.parseCall ∉ (main 1 exampleArgs exampleLib).2 :=
  ⟨by decide,
   (c4_few_args 1 exampleArgs exampleLib (by decide)).1,
   (c4_few_args 1 exampleArgs exampleLib (by decide)).2.1,
   (c4_few_args 1 exampleArgs exampleLib (by decide)).2.2.1⟩

/-- C7: when the argument-count check passes but no `-f` filename was parsed,
the program logs the filename error, prints the usage text, and fails,
with no dataset load and no training call in the trace. -/
theorem c7_missing_filename (argc : Nat) (cmdline : CommandLineArgs) (lib : ExternalLib)
    (h2 : 2 ≤ argc) (hf : cmdline.filename = none) :
    (main argc cmdline lib).1 = EXIT_FAILURE ∧
    Event.error "Failed to parse filename from command line! You can set the filename using the -f."
      ∈ (main argc cmdline lib).2 ∧
    Event.usage ∈ (main argc cmdline lib).2 ∧
    (∀ f, Event.loadCall f ∉ (main argc cmdline lib).2) ∧
    Event.trainCall ∉ (main argc cmdline lib).2 := by
  simp [main_ge_two argc cmdline lib h2, train_no_filename cmdline lib hf]

theorem c7_missing_filename_witness :
    (2 ≤ 2 ∧ exampleArgsNoFile.filename = none) ∧
    (main 2 exampleArgsNoFile exampleLib).1 = EXIT_FAILURE ∧
    Event.error "Failed to parse filename from command line! You can set the filename using the -f."
      ∈ (main 2 exampleArgsNoFile exampleLib).2 ∧
    Event.trainCall ∉ (main 2 exampleArgsNoFile exampleLib).2 :=
  ⟨⟨by decide, by decide⟩,
   (c7_missing_filename 2 exampleArgsNoFile exampleLib (by decide) (by decide)).1,
   (c7_missing_filename 2 exampleArgsNoFile exampleLib (by decide) (by decide)).2.1,
   (c7_missing_filename 2 exampleArgsNoFile exampleLib (by decide) (by decide)).2.2.2.2⟩

/-- C10: on every failure path — too few arguments, missing filename, dataset
load failure, or training failure — the usage text is printed before the
process exits with failure, because `main` calls `printUsage` whenever
`train` returns `false` (and on the argument-count check). -/
theorem c10_usage_on_failure (argc : Nat) (cmdline : CommandLineArgs) (lib : ExternalLib)
    (h : (main argc cmdline lib).1 = EXIT_FAILURE) :
    Event.usage ∈ (main argc cmdline lib).2 := by
  by_cases h2 : argc < 2
  · simp [main_few_args argc cmdline lib h2]
  · have h2' : 2 ≤ argc := Nat.not_lt.mp h2
    rw [main_ge_two argc cmdline lib h2'] at h ⊢
    rcases htr : (train cmdline lib).1
    · simp [htr]
    · simp [htr, EXIT_SUCCESS, EXIT_FAILURE] at h

theorem c10_usage_on_failure_witness :
    (main 3 exampleArgsNoFile exampleLibSaveFail).1 = EXIT_FAILURE ∧
    Event.usage ∈ (main 3 exampleArgsNoFile exampleLibSaveFail).2 :=
  ⟨by decide, c10_usage_on_failure 3 exampleArgsNoFile exampleLibSaveFail (by decide)⟩

/-- C2: when training succeeds but the save of the trained pipeline fails,
the program logs the save-failure warning and still exits with code 0; the
exit code does not depend on the save outcome at all. -/
theorem c2_save_failure_nonfatal (argc : Nat) (cmdline : CommandLineArgs) (lib : ExternalLib)
    (f : String) (h2 : 2 ≤ argc) (hf : cmdline.filename = some f)
    (hl : lib.loadSucceeds = true) (ht : lib.trainSucceeds = true)
    (hs : lib.saveSucceeds = false) :
    (main argc cmdline lib).1 = EXIT_SUCCESS ∧
    Event.warning ("Failed to save model to file: " ++ cmdline.modelFilename.getD defaultFilename)
      ∈ (main argc cmdline lib).2 ∧
    (∀ b : Bool,
      (main argc cmdline
        ⟨lib.loadSucceeds, lib.numSamples, lib.numInputDimensions, lib.numTargetDimensions,
         lib.trainSucceeds, b, lib.trainingTime⟩).1 = (main argc cmdline lib).1) := by
  refine ⟨?_, ?_, ?_⟩
  · simp [main_ge_two argc cmdline lib h2, train_success cmdline lib f hf hl ht]
  · simp [main_ge_two argc cmdline lib h2, train_success cmdline lib f hf hl ht, saveEvents, hs]
  · intro b
    have hl₂ : (ExternalLib.mk lib.loadSucceeds lib.numSamples lib.numInputDimensions
        lib.numTargetDimensions lib.trainSucceeds b lib.trainingTime).loadSucceeds = true := hl
    have ht₂ : (ExternalLib.mk lib.loadSucceeds lib.numSamples lib.numInputDimensions
        lib.numTargetDimensions lib.trainSucceeds b lib.trainingTime).trainSucceeds = true := ht
    simp [main_ge_two argc cmdline _ h2, main_ge_two argc cmdline lib h2,
      train_success cmdline _ f hf hl₂ ht₂, train_success cmdline lib f hf hl ht]

theorem c2_save_failure_nonfatal_witness :
    (2 ≤ 3 ∧ exampleArgs.filename = some "data.csv" ∧
     exampleLibSaveFail.loadSucceeds = true ∧ exampleLibSaveFail.trainSucceeds = true ∧
     exampleLibSaveFail.saveSucceeds = false) ∧
    (main 3 exampleArgs exampleLibSaveFail).1 = EXIT_SUCCESS ∧
    Event.warning ("Failed to save model to file: " ++
      exampleArgs.modelFilename.getD defaultFilename) ∈ (main 3 exampleArgs exampleLibSaveFail).2 :=
  ⟨⟨by decide, rfl, rfl, rfl, rfl⟩,
   (c2_save_failure_nonfatal 3 exampleArgs exampleLibSaveFail "data.csv"
     (by decide) rfl rfl rfl rfl).1,
   (c2_save_failure_nonfatal 3 exampleArgs exampleLibSaveFail "data.csv"
     (by decide) rfl rfl rfl rfl).2.1⟩

/-- C8: when `--model` was not supplied, the save attempt on a successful run
uses the fixed default filename `linear-regression-model.grt`. -/
theorem c8_default_model_filename (argc : Nat) (cmdline : CommandLineArgs) (lib : ExternalLib)
    (f : String) (h2 : 2 ≤ argc) (hf : cmdline.filename = some f)
    (hm : cmdline.modelFilename = none)
    (hl : lib.loadSucceeds = true) (ht : lib.trainSucceeds = true) :
    Event.saveCall defaultFilename ∈ (main argc cmdline lib).2 ∧
    defaultFilename = "linear-regression-model.grt" := by
  constructor
  · simp [main_ge_two argc cmdline lib h2, train_success cmdline lib f hf hl ht, hm]
  · rfl

theorem c8_default_model_filename_witness :
    (2 ≤ 2 ∧ exampleArgsNoModel.filename = some "data.grt" ∧
     exampleArgsNoModel.modelFilename = none) ∧
    Event.saveCall defaultFilename ∈ (main 2 exampleArgsNoModel exampleLib).2 ∧
    defaultFilename = "linear-regression-model.grt" :=
  ⟨⟨by decide, rfl, rfl⟩,
   (c8_default_model_filename 2 exampleArgsNoModel exampleLib "data.grt"
     (by decide) rfl rfl rfl rfl).1,
   (c8_default_model_filename 2 exampleArgsNoModel exampleLib "data.grt"
     (by decide) rfl rfl rfl rfl).2⟩

/-- C9: after a successful load of a dataset with `numSamples` samples,
`numInputDimensions` input and `numTargetDimensions` target dimensions, the
diagnostic output reports exactly those three values, read back from the
loaded dataset (`lib`), whatever the command-line flags (`cmdline`) said. -/
theorem c9_dimension_report (argc : Nat) (cmdline : CommandLineArgs) (lib : ExternalLib)
    (f : String) (h2 : 2 ≤ argc) (hf : cmdline.filename = some f)
    (hl : lib.loadSucceeds = true) :
    Event.info ("- Num training samples: " ++ toString lib.numSamples)
      ∈ (main argc cmdline lib).2 ∧
    Event.info ("- Num input dimensions: " ++ toString lib.numInputDimensions)
      ∈ (main argc cmdline lib).2 ∧
    Event.info ("- Num target dimensions: " ++ toString lib.numTargetDimensions)
      ∈ (main argc cmdline lib).2 := by
  rcases ht : lib.trainSucceeds
  · simp [main_ge_two argc cmdline lib h2, train_train_fail cmdline lib f hf hl ht]
  · simp [main_ge_two argc cmdline lib h2, train_success cmdline lib f hf hl ht]

theorem c9_dimension_report_witness :
    (2 ≤ 3 ∧ exampleArgsNoModel.filename = some "data.grt" ∧
     exampleLib.loadSucceeds = true) ∧
    Event.info ("- Num training samples: " ++ toString exampleLib.numSamples)
      ∈ (main 3 exampleArgsNoModel exampleLib).2 ∧
    Event.info ("- Num input dimensions: " ++ toString exampleLib.numInputDimensions)
      ∈ (main 3 exampleArgsNoModel exampleLib).2 :=
  ⟨⟨by decide, rfl, rfl⟩,
   (c9_dimension_report 3 exampleArgsNoModel exampleLib "data.grt" (by decide) rfl rfl).1,
   (c9_dimension_report 3 exampleArgsNoModel exampleLib "data.grt" (by decide) rfl rfl).2.1⟩

/-- C5: on a run that reaches loading (argument count ok, `-f` parsed), the
dataset's expected shape is pre-configured (a `setInputAndTargetDimensions`
call appears in the trace) if and only if both `-n` and `-t` are present and
parse as non-negative integers — and then with exactly the parsed values,
and before the load call. -/
theorem c5_shape_preconfiguration (argc : Nat) (cmdline : CommandLineArgs) (lib : ExternalLib)
    (f : String) (h2 : 2 ≤ argc) (hf : cmdline.filename = some f) :
    (∀ n t, Event.setInputAndTargetDimensions n t ∈ (main argc cmdline lib).2 ↔
        (cmdline.numInputDimensions = some n ∧ cmdline.numTargetDimensions = some t)) ∧
    (∀ n t, cmdline.numInputDimensions = some n → cmdline.numTargetDimensions = some t →
        SeqOccurs (Event.setInputAndTargetDimensions n t) (Event.loadCall f)
          (main argc cmdline lib).2) := by
  constructor
  · intro n t
    rcases hl : lib.loadSucceeds
    · simp [main_ge_two argc cmdline lib h2, train_load_fail cmdline lib f hf hl,
        setShape_mem_dimEvents]
    · rcases ht : lib.trainSucceeds
      · simp [main_ge_two argc cmdline lib h2, train_train_fail cmdline lib f hf hl ht,
          setShape_mem_dimEvents]
      · simp [main_ge_two argc cmdline lib h2, train_success cmdline lib f hf hl ht,
          setShape_mem_dimEvents, setShape_not_mem_saveEvents]
  · intro n t hn htarg
    rcases hl : lib.loadSucceeds
    · simp [main_ge_two argc cmdline lib h2, train_load_fail cmdline lib f hf hl,
        dimEvents, hn, htarg]
      iterate 3 refine seqOccurs_cons _ _ _ _ ?_
      exact ⟨[], [Event.info "- Loading Training Data..."], _, rfl⟩
    · rcases ht : lib.trainSucceeds
      · simp [main_ge_two argc cmdline lib h2, train_train_fail cmdline lib f hf hl ht,
          dimEvents, hn, htarg]
        iterate 3 refine seqOccurs_cons _ _ _ _ ?_
        exact ⟨[], [Event.info "- Loading Training Data..."], _, rfl⟩
      · simp [main_ge_two argc cmdline lib h2, train_success cmdline lib f hf hl ht,
          dimEvents, hn, htarg]
        iterate 3 refine seqOccurs_cons _ _ _ _ ?_
        exact ⟨[], [Event.info "- Loading Training Data..."], _, rfl⟩

theorem c5_shape_preconfiguration_witness :
    (2 ≤ 3 ∧ exampleArgs.filename = some "data.csv" ∧
     exampleArgs.numInputDimensions = some 2 ∧ exampleArgs.numTargetDimensions = some 1) ∧
    Event.setInputAndTargetDimensions 2 1 ∈ (main 3 exampleArgs exampleLib).2 ∧
    SeqOccurs (Event.setInputAndTargetDimensions 2 1) (Event.loadCall "data.csv")
      (main 3 exampleArgs exampleLib).2 :=
  ⟨⟨by decide, rfl, rfl, rfl⟩,
   ((c5_shape_preconfiguration 3 exampleArgs exampleLib "data.csv" (by decide) rfl).1 2 1).mpr
     ⟨rfl, rfl⟩,
   (c5_shape_preconfiguration 3 exampleArgs exampleLib "data.csv" (by decide) rfl).2 2 1 rfl rfl⟩

/-- C6: every run that reaches training (a `trainCall` in the trace)
configures the regression algorithm with exactly the compile-time constants
of lines 115-120: iteration cap 500, convergence threshold `1e-5`,
validation set enabled with the fixed size 20, training order randomised,
and input scaling enabled; no other configuration is ever installed. -/
theorem c6_fixed_configuration (argc : Nat) (cmdline : CommandLineArgs) (lib : ExternalLib)
    (h : Event.trainCall ∈ (main argc cmdline lib).2) :
    Event.configure configuredRegression ∈ (main argc cmdline lib).2 ∧
    (∀ cfg, Event.configure cfg ∈ (main argc cmdline lib).2 → cfg = configuredRegression) ∧
    configuredRegression.maxNumEpochs = 500 ∧
    configuredRegression.minChange = 1e-5 ∧
    configuredRegression.useValidationSet = true ∧
    configuredRegression.validationSetSize = 20 ∧
    configuredRegression.randomiseTrainingOrder = true ∧
    configuredRegression.scalingEnabled = true := by
  by_cases h2 : argc < 2
  · rw [main_few_args argc cmdline lib h2] at h
    simp at h
  · have h2' : 2 ≤ argc := Nat.not_lt.mp h2
    rcases hf : cmdline.filename with _ | f
    · rw [main_ge_two argc cmdline lib h2', train_no_filename cmdline lib hf] at h
      simp at h
    · rcases hl : lib.loadSucceeds
      · rw [main_ge_two argc cmdline lib h2', train_load_fail cmdline lib f hf hl] at h
        simp [trainCall_not_mem_dimEvents] at h
      · rcases ht : lib.trainSucceeds
        · refine ⟨?_, ?_, rfl, rfl, rfl, rfl, rfl, rfl⟩
          · simp [main_ge_two argc cmdline lib h2', train_train_fail cmdline lib f hf hl ht]
          · intro cfg hcfg
            rw [main_ge_two argc cmdline lib h2',
              train_train_fail cmdline lib f hf hl ht] at hcfg
            simp [configure_not_mem_dimEvents] at hcfg
            exact hcfg
        · refine ⟨?_, ?_, rfl, rfl, rfl, rfl, rfl, rfl⟩
          · simp [main_ge_two argc cmdline lib h2', train_success cmdline lib f hf hl ht]
          · intro cfg hcfg
            rw [main_ge_two argc cmdline lib h2',
              train_success cmdline lib f hf hl ht] at hcfg
            simp [configure_not_mem_dimEvents, configure_not_mem_saveEvents] at hcfg
            exact hcfg

theorem c6_fixed_configuration_witness :
    Event.trainCall ∈ (main 3 exampleArgs exampleLib).2 ∧
    Event.configure configuredRegression ∈ (main 3 exampleArgs exampleLib).2 ∧
    configuredRegression.maxNumEpochs = 500 ∧
    configuredRegression.minChange = 1e-5 :=
  ⟨by decide,
   (c6_fixed_configuration 3 exampleArgs exampleLib (by decide)).1,
   (c6_fixed_configuration 3 exampleArgs exampleLib (by decide)).2.2.1,
   (c6_fixed_configuration 3 exampleArgs exampleLib (by decide)).2.2.2.1⟩

/-- C3 counterexample: the claim says the training time is reported and
*then* the save is attempted.  On this concrete successful run (all flags
present, every library call succeeds) there is no point of the trace where
the training-time report precedes the save attempt: the source saves first
(line 141) and reports the training time afterwards (line 145). -/
theorem c3_report_order_counterexample :
    (main 3 exampleArgs exampleLib).1 = EXIT_SUCCESS ∧
    ¬ SeqOccurs (Event.info ("- TrainingTime: " ++ toString exampleLib.trainingTime))
        (Event.saveCall (exampleArgs.modelFilename.getD defaultFilename))
        (main 3 exampleArgs exampleLib).2 := by
  constructor
  · decide
  · rw [← seqOccursB_iff]
    decide

/-- C3 (amended): on a successful training run the program attempts to
serialize the trained pipeline to the model filename and then reports the
elapsed training time, in that order. -/
theorem c3_save_then_report_timing (argc : Nat) (cmdline : CommandLineArgs) (lib : ExternalLib)
    (f : String) (h2 : 2 ≤ argc) (hf : cmdline.filename = some f)
    (hl : lib.loadSucceeds = true) (ht : lib.trainSucceeds = true) :
    SeqOccurs (Event.saveCall (cmdline.modelFilename.getD defaultFilename))
      (Event.info ("- TrainingTime: " ++ toString lib.trainingTime))
      (main argc cmdline lib).2 := by
  rcases hs : lib.saveSucceeds
  · simp [main_ge_two argc cmdline lib h2, train_success cmdline lib f hf hl ht, saveEvents, hs]
    refine seqOccurs_cons _ _ _ _ ?_
    refine seqOccurs_cons _ _ _ _ ?_
    refine seqOccurs_append_left _ _ _ _ ?_
    iterate 10 refine seqOccurs_cons _ _ _ _ ?_
    exact ⟨[], [Event.warning ("Failed to save model to file: " ++
      cmdline.modelFilename.getD defaultFilename)], [Event.info "Model Trained!"], rfl⟩
  · simp [main_ge_two argc cmdline lib h2, train_success cmdline lib f hf hl ht, saveEvents, hs]
    refine seqOccurs_cons _ _ _ _ ?_
    refine seqOccurs_cons _ _ _ _ ?_
    refine seqOccurs_append_left _ _ _ _ ?_
    iterate 10 refine seqOccurs_cons _ _ _ _ ?_
    exact ⟨[], [Event.info "- Model saved."], [Event.info "Model Trained!"], rfl⟩

theorem c3_save_then_report_timing_witness :
    (2 ≤ 3 ∧ exampleArgs.filename = some "data.csv" ∧
     exampleLib.loadSucceeds = true ∧ exampleLib.trainSucceeds = true) ∧
    SeqOccurs (Event.saveCall (exampleArgs.modelFilename.getD defaultFilename))
      (Event.info ("- TrainingTime: " ++ toString exampleLib.trainingTime))
      (main 3 exampleArgs exampleLib).2 :=
  ⟨⟨by decide, rfl, rfl, rfl⟩,
   c3_save_then_report_timing 3 exampleArgs exampleLib "data.csv" (by decide) rfl rfl rfl⟩

end GrtLinRegTool
